import Mathlib

/-!
Verification of the link classification, resolution and download pipeline of
`canvas_auto_downloader.py`.

Shallow embedding conventions:
* Python strings are embedded as `List Char` (`Str` below); byte strings as
  `List Nat` (`Bytes`), one `Nat` per byte.
* The filesystem is a partial map from path to file content
  (`FSt := Str → Option Bytes`).
* The HTTP session is a pair of oracle functions (`Net` below): `get` models
  `session.get(url, allow_redirects=True)` returning either a transport error
  or a response (final URL after redirects, HTTP status, and the anchor
  elements that BeautifulSoup would extract from the body); `fetch` models the
  streamed `session.get(url, stream=True)` returning either a transport error
  or the status code together with the full body bytes.  Partial writes of an
  interrupted stream are not modelled: a fetch either fails before anything is
  written or delivers the whole body.
* All definitions are translated from the source file
  `src/canvas_auto_downloader.py`; line numbers in comments refer to it.
-/

abbrev Str := List Char

abbrev Bytes := List Nat

abbrev FSt := Str → Option Bytes

/-- A parsed `<a>` element: its `href` attribute (empty when the attribute is
absent), its text content, and whether it carries `download="true"`. -/
structure Anchor where
  href : Str
  text : Str
  download_attr : Bool
deriving DecidableEq, Repr

/-- BASE_URL constant, line 17 of the source. -/
def base_url : Str := "https://thomasmore.instructure.com".data

/-! ### Generic string helpers mirroring Python primitives -/

/-- Python substring test `needle in hay` (also used on byte strings). -/
def contains_sub {α : Type} [BEq α] (needle : List α) : List α → Bool
  | [] => needle.isEmpty
  | c :: cs => needle.isPrefixOf (c :: cs) || contains_sub needle cs

/-- Python `re.search(pat, s)`: try to match `p` at every start position. -/
def search_match (p : Str → Bool) : Str → Bool
  | [] => p []
  | c :: cs => p (c :: cs) || search_match p cs

/-- Match a literal at the head of the input, returning the rest. -/
def strip_lit (lit cs : Str) : Option Str :=
  if lit.isPrefixOf cs then some (cs.drop lit.length) else none

/-- Match `\d+` (maximal run, at least one digit) at the head of the input.
In every pattern of the source the `\d+` is followed by `/` or nothing, so
the maximal-run reading agrees with the backtracking regex semantics. -/
def strip_digits1 : Str → Option Str
  | [] => none
  | c :: cs => if c.isDigit then some (cs.dropWhile Char.isDigit) else none

/-- Python `str.strip()` whitespace (the six ASCII whitespace characters). -/
def is_py_space (c : Char) : Bool :=
  c == ' ' || c == '\t' || c == '\n' || c == '\r' || c == '\x0b' || c == '\x0c'

/-- Python `str.strip()`. -/
def strip_spaces (cs : Str) : Str :=
  ((cs.dropWhile is_py_space).reverse.dropWhile is_py_space).reverse

/-! ### Link classifier: `is_downloadable_file`, source lines 238-286 -/

/-- The extension allow-list, source lines 241-249 (a Python set; only
membership is ever used, so the list order is irrelevant). -/
def downloadable_extensions : List Str :=
  [".pdf".data, ".doc".data, ".docx".data, ".ppt".data, ".pptx".data,
   ".xls".data, ".xlsx".data,
   ".zip".data, ".rar".data, ".7z".data, ".tar".data, ".gz".data,
   ".jpg".data, ".jpeg".data, ".png".data, ".gif".data, ".bmp".data,
   ".svg".data,
   ".mp3".data, ".mp4".data, ".avi".data, ".mov".data, ".wav".data,
   ".txt".data, ".csv".data, ".json".data, ".xml".data, ".html".data,
   ".css".data, ".js".data,
   ".py".data, ".java".data, ".cpp".data, ".c".data, ".h".data,
   ".sql".data, ".db".data, ".sqlite".data, ".rtf".data, ".odt".data,
   ".ods".data, ".odp".data]

def lit_qmark : Str := "?".data

def lit_hashmark : Str := "#".data

/-- First loop of `is_downloadable_file`, source lines 252-255:
`url_lower.endswith(ext) or f'{ext}?' in url_lower or f'{ext}#' in url_lower`. -/
def ext_signal (url : Str) : Bool :=
  downloadable_extensions.any (fun ext =>
    ext.isSuffixOf (url.map Char.toLower)
      || contains_sub (ext ++ lit_qmark) (url.map Char.toLower)
      || contains_sub (ext ++ lit_hashmark) (url.map Char.toLower))

def lit_courses_slash : Str := "/courses/".data

def lit_files_slash : Str := "/files/".data

def lit_file_contents : Str := "/file_contents/".data

def lit_users_slash : Str := "/users/".data

def lit_marker : Str := "/download?download_frd=1".data

def lit_instructure : Str := "instructure.com".data

def lit_files_word : Str := "files".data

/-- Regex `/courses/\d+/files/\d+` matched at the current position. -/
def match_courses_files (cs : Str) : Bool :=
  match strip_lit lit_courses_slash cs with
  | none => false
  | some r1 =>
    match strip_digits1 r1 with
    | none => false
    | some r2 =>
      match strip_lit lit_files_slash r2 with
      | none => false
      | some r3 => (strip_digits1 r3).isSome

/-- Regex `/files/\d+` matched at the current position. -/
def match_files_id (cs : Str) : Bool :=
  match strip_lit lit_files_slash cs with
  | none => false
  | some r => (strip_digits1 r).isSome

/-- Regex `/courses/\d+/file_contents/` matched at the current position. -/
def match_course_contents (cs : Str) : Bool :=
  match strip_lit lit_courses_slash cs with
  | none => false
  | some r1 =>
    match strip_digits1 r1 with
    | none => false
    | some r2 => (strip_lit lit_file_contents r2).isSome

/-- Regex `/users/\d+/files/\d+` matched at the current position. -/
def match_users_files (cs : Str) : Bool :=
  match strip_lit lit_users_slash cs with
  | none => false
  | some r1 =>
    match strip_digits1 r1 with
    | none => false
    | some r2 =>
      match strip_lit lit_files_slash r2 with
      | none => false
      | some r3 => (strip_digits1 r3).isSome

/-- Regex `instructure\.com.*files` matched at the current position;
`.*` does not cross a newline, hence the `takeWhile`. -/
def match_instructure_files (cs : Str) : Bool :=
  match strip_lit lit_instructure cs with
  | none => false
  | some r => contains_sub lit_files_word (r.takeWhile (fun c => !(c == '\n')))

/-- Second loop of `is_downloadable_file`, source lines 258-269: the Canvas
file-reference patterns (the `download_frd` pattern is a pure literal). -/
def canvas_signal (url : Str) : Bool :=
  search_match match_courses_files url
    || search_match match_files_id url
    || contains_sub lit_marker url
    || search_match match_course_contents url
    || search_match match_users_files url
    || search_match match_instructure_files url

/-- The `file_indicators` list, source lines 272-273. -/
def file_indicators : List Str :=
  ["download".data, "attachment".data, "file".data, ".pdf".data, ".doc".data,
   ".ppt".data, ".xls".data, "handout".data, "worksheet".data,
   "assignment".data, "syllabus".data, "slides".data]

/-- Third loop of `is_downloadable_file`, source lines 274-277. -/
def text_file_signal (text : Str) : Bool :=
  file_indicators.any (fun ind => contains_sub ind (text.map Char.toLower))

/-- The `non_file_indicators` list, source lines 280-281. -/
def non_file_indicators : List Str :=
  ["http://www.".data, "https://www.".data, "wiki".data, "page".data,
   "module".data, "discussion".data, "assignment submission".data,
   "grade".data, "course".data]

/-- Fourth loop of `is_downloadable_file`, source lines 282-284 (its body
returns `False`, as does the fall-through, so it only shapes control flow). -/
def non_file_signal (url text : Str) : Bool :=
  non_file_indicators.any (fun ind =>
    contains_sub ind (text.map Char.toLower)
      && !(downloadable_extensions.any (fun ext =>
            contains_sub ext (url.map Char.toLower))))

/-- `is_downloadable_file(url, text)`, source lines 238-286. -/
def is_downloadable_file (url text : Str) : Bool :=
  if ext_signal url then true
  else if canvas_signal url then true
  else if text_file_signal text then true
  else if non_file_signal url text then false
  else false

/-! ### Filename resolver: `get_filename_from_url_or_text`, source lines 288-314 -/

/-- `url.split('?')[0]`, source lines 291-294 (the source branches on
`'?' in url`; both branches compute the part before the first `?`). -/
def url_path_of_py (url : Str) : Str :=
  if url.contains '?' then url.takeWhile (fun c => !(c == '?')) else url

/-- `os.path.basename` on a URL-shaped string: the part after the last `/`. -/
def basename_of (cs : Str) : Str :=
  (cs.reverse.takeWhile (fun c => !(c == '/'))).reverse

/-- `url_path.split('.')[-1]`: the part after the last `.`. -/
def after_last_dot (cs : Str) : Str :=
  (cs.reverse.takeWhile (fun c => !(c == '.'))).reverse

/-- Python `str.isdigit()`: nonempty and all digits. -/
def is_all_digits (cs : Str) : Bool :=
  !cs.isEmpty && cs.all Char.isDigit

/-- The character class of `re.sub(r'[\\/*?:"<>|]', "", ...)`, line 313. -/
def illegal_filename_chars : List Char :=
  ['\\', '/', '*', '?', ':', '\"', '<', '>', '|']

/-- `re.sub(r'[\\/*?:"<>|]', "", filename)`, source line 313. -/
def clean_filename (cs : Str) : Str :=
  cs.filter (fun c => !(illegal_filename_chars.contains c))

def lit_download_space : Str := "download ".data

/-- Sentinel returned when everything else is empty, source line 314. -/
def sentinel_name : Str := "downloaded_file".data

/-- Source lines 300-303: `text.strip()`, then drop a leading
(case-insensitive) `"download "` prefix of nine characters. -/
def fallback_name (text : Str) : Str :=
  let f := strip_spaces text
  if lit_download_space.isPrefixOf (f.map Char.toLower) then f.drop 9 else f

/-- Source lines 313-314: strip illegal characters, then fall back to the
sentinel when the result is empty. -/
def finalize_filename (f : Str) : Str :=
  if (clean_filename f).isEmpty then sentinel_name else clean_filename f

/-- `get_filename_from_url_or_text(url, text)`, source lines 288-314.  The
`len(url_parts) > 1` guard of line 307 is implied by `'.' in url_path`. -/
def get_filename_from_url_or_text (url text : Str) : Str :=
  let url_path := url_path_of_py url
  let fn0 := basename_of url_path
  let fn1 :=
    if fn0.isEmpty || is_all_digits fn0 || !(fn0.contains '.') then
      let f := fallback_name text
      if !(f.contains '.') && url_path.contains '.' then
        let ext := '.' :: after_last_dot url_path
        if ext.length ≤ 5 then f ++ ext else f
      else f
    else fn0
  finalize_filename fn1

/-! ### Content validator: `validate_file_content`, source lines 162-200 -/

/-- `bytes.lower()` on a single byte: ASCII upper-case letters only. -/
def byte_lower (b : Nat) : Nat :=
  if 65 ≤ b ∧ b ≤ 90 then b + 32 else b

/-- Byte string `b'%PDF-'`. -/
def bytes_pdf_sig : Bytes := [37, 80, 68, 70, 45]

/-- Byte string `b'<html'`. -/
def bytes_html : Bytes := [60, 104, 116, 109, 108]

/-- Byte string `b'<!doctype'`. -/
def bytes_doctype : Bytes := [60, 33, 100, 111, 99, 116, 121, 112, 101]

/-- The `zip_signatures` list of source line 177:
`PK\x03\x04`, `PK\x05\x06`, `PK\x07\x08`. -/
def zip_signatures : List Bytes :=
  [[80, 75, 3, 4], [80, 75, 5, 6], [80, 75, 7, 8]]

/-- Byte string `b'\xff\xd8\xff'` (JPEG). -/
def bytes_jpeg_sig : Bytes := [255, 216, 255]

/-- Byte string `b'\x89PNG\r\n\x1a\n'` (PNG). -/
def bytes_png_sig : Bytes := [137, 80, 78, 71, 13, 10, 26, 10]

def ext_pdf : Str := ".pdf".data

def archive_exts : List Str := [".zip".data, ".rar".data, ".7z".data]

def jpeg_exts : List Str := [".jpg".data, ".jpeg".data]

def ext_png : Str := ".png".data

def msg_could_not_validate : Str := "Could not validate file".data

def msg_html_not_pdf : Str := "Downloaded HTML instead of PDF".data

def msg_not_pdf : Str := "Not a valid PDF file".data

def msg_html_not_archive : Str := "Downloaded HTML instead of archive".data

def msg_not_archive : Str := "Not a valid archive file".data

def msg_html_not_image : Str := "Downloaded HTML instead of image".data

def msg_not_jpeg : Str := "Not a valid JPEG file".data

def msg_not_png : Str := "Not a valid PNG file".data

def msg_html_generic : Str := "Downloaded HTML instead of expected file type".data

def msg_valid : Str := "File appears valid".data

/-- `validate_file_content(file_path, expected_extension)`, source lines
162-200.  The file is passed by content (`none` models the `open`/`read`
raising, caught at lines 199-200; the exception text is elided).  `header`
is the first 1024 bytes (line 167); every signature branch that does not
return falls through to the generic HTML check of lines 194-195. -/
def validate_file_content (content : Option Bytes) (expected_extension : Str) :
    Bool × Str :=
  match content with
  | none => (false, msg_could_not_validate)
  | some bytes =>
    let header := bytes.take 1024
    let header_lower := header.map byte_lower
    let ext_lower := expected_extension.map Char.toLower
    let has_html := contains_sub bytes_html header_lower
    let has_doctype := contains_sub bytes_doctype header_lower
    let generic : Bool × Str :=
      if has_html || has_doctype then (false, msg_html_generic)
      else (true, msg_valid)
    if ext_lower = ext_pdf then
      if !(bytes_pdf_sig.isPrefixOf header) then
        (false, if has_html || has_doctype then msg_html_not_pdf else msg_not_pdf)
      else generic
    else if archive_exts.contains ext_lower then
      if !(zip_signatures.any (fun sig => sig.isPrefixOf header)) then
        (false, if has_html then msg_html_not_archive else msg_not_archive)
      else generic
    else if jpeg_exts.contains ext_lower then
      if !(bytes_jpeg_sig.isPrefixOf header) then
        (false, if has_html then msg_html_not_image else msg_not_jpeg)
      else generic
    else if ext_lower = ext_png then
      if !(bytes_png_sig.isPrefixOf header) then
        (false, if has_html then msg_html_not_image else msg_not_png)
      else generic
    else generic

/-! ### Network model -/

/-- A response to `session.get(url, allow_redirects=True)`: HTTP status,
final URL after redirects (`response.url`), and the anchors BeautifulSoup
extracts from `response.text`. -/
structure Resp where
  status : Nat
  final_url : Str
  anchors : List Anchor
deriving Repr

/-- The authenticated session as a pair of oracles: `get` for page probes,
`fetch` for the streamed download (status code and body bytes). -/
structure Net where
  get : Str → Except Str Resp
  fetch : Str → Except Str (Nat × Bytes)

def lit_slash : Str := "/".data

/-- Making a relative href absolute (`BASE_URL + href` when it starts with
`/`), as done at source lines 93-94, 111-114, 143-144, 151-152, 341-344. -/
def absolutize_href (href : Str) : Str :=
  if lit_slash.isPrefixOf href then base_url ++ href else href

/-! ### Redirect/indirection resolver: `resolve_canvas_file_url`, lines 123-160 -/

/-- `resolve_canvas_file_url(session, url)`, source lines 123-160.  A
transport error of `session.get` or an HTTP error status (raised by
`raise_for_status`, line 128) is caught by the `except` of lines 158-160 and
the original `url` returned.  Lines 140-153: prefer the anchor carrying
`download="true"` (when its href is non-empty, Python truthiness), otherwise
the first anchor whose href contains the direct-download marker. -/
def resolve_canvas_file_url (net : Net) (url : Str) : Str :=
  match net.get url with
  | Except.error _ => url
  | Except.ok resp =>
    if 400 ≤ resp.status then url
    else if contains_sub lit_marker resp.final_url then resp.final_url
    else if contains_sub lit_instructure resp.final_url
            && (contains_sub lit_files_slash resp.final_url
                || contains_sub lit_courses_slash resp.final_url) then
      let from_loop :=
        match resp.anchors.find? (fun a => contains_sub lit_marker a.href) with
        | some a2 => absolutize_href a2.href
        | none => url
      match resp.anchors.find? (fun a => a.download_attr) with
      | some dl => if dl.href.isEmpty then from_loop else absolutize_href dl.href
      | none => from_loop
    else url

/-! ### Downloader: `download_file`, source lines 202-236 -/

/-- `os.path.splitext(save_path)[1]` (source line 225): the extension of the
final path component, where a run of leading dots does not start one. -/
def splitext_ext (p : Str) : Str :=
  let base := basename_of p
  let rest := base.dropWhile (fun c => c == '.')
  if rest.contains '.' then '.' :: after_last_dot rest else []

/-- Point update of the modelled filesystem (the `open(save_path,'wb')`
write of source lines 217-222). -/
def fs_update (fs : FSt) (p : Str) (b : Bytes) : FSt :=
  fun q => if q = p then some b else fs q

/-- Outcome of one `download_file` call: the filesystem afterwards, how many
`session.get` probes the URL resolver issued, how many streamed fetches were
attempted, and the validator verdict when one was computed. -/
structure DLOut where
  fs : FSt
  resolveGets : Nat
  streamGets : Nat
  validation : Option (Bool × Str)

/-- `download_file(session, url, save_path)`, source lines 202-236.  If the
file exists the function returns immediately (lines 204-206): no resolver
probe, no fetch, no write.  Otherwise the URL is resolved (one `get` probe,
line 210), then one streamed fetch is attempted; a transport error or an
error status (`raise_for_status`, line 215) is caught by the `except` of
lines 235-236 — the function never propagates an exception.  On success the
body is written and the validator runs on the saved bytes (lines 225-226);
an invalid verdict only changes the log message, the file is retained
(lines 231-233). -/
def download_file (net : Net) (url save_path : Str) (fs : FSt) : DLOut :=
  if (fs save_path).isSome then
    { fs := fs, resolveGets := 0, streamGets := 0, validation := none }
  else
    let resolved := resolve_canvas_file_url net url
    match net.fetch resolved with
    | Except.error _ =>
      { fs := fs, resolveGets := 1, streamGets := 1, validation := none }
    | Except.ok (st, body) =>
      if 400 ≤ st then
        { fs := fs, resolveGets := 1, streamGets := 1, validation := none }
      else
        { fs := fs_update fs save_path body,
          resolveGets := 1, streamGets := 1,
          validation := some (validate_file_content (some body)
                                (splitext_ext save_path)) }

/-! ### Page content transformer, source lines 316-375

The JSON-body extraction of lines 318-326 is not modelled: the transformer is
embedded starting from the anchor list that BeautifulSoup yields for the
recovered body markup. -/

def lit_mailto : Str := "mailto:".data

/-- Skip test of source lines 336-338 (and, with the same two prefixes in the
other order, lines 106-108): empty href, `mailto:` or fragment link. -/
def skip_anchor (href : Str) : Bool :=
  href.isEmpty || lit_mailto.isPrefixOf href || lit_hashmark.isPrefixOf href

/-- One collected downloadable link, source lines 350-355; `idx` stands for
the `a_tag` reference (the position of the anchor in the body). -/
structure DLink where
  name : Str
  url : Str
  idx : Nat
  original_href : Str
deriving DecidableEq, Repr

/-- Collection loop of source lines 331-355, carrying the running position. -/
def collect_from (i : Nat) : List Anchor → List DLink
  | [] => []
  | a :: rest =>
    if skip_anchor a.href then collect_from (i + 1) rest
    else
      let full := absolutize_href a.href
      if is_downloadable_file full a.text then
        { name := get_filename_from_url_or_text full a.text,
          url := full, idx := i, original_href := a.href }
          :: collect_from (i + 1) rest
      else collect_from (i + 1) rest

def collect_download_links (anchors : List Anchor) : List DLink :=
  collect_from 0 anchors

/-- `os.path.join(download_dir, name)` (source line 361), with `/` as the
path separator. -/
def path_join (dir nm : Str) : Str := dir ++ lit_slash ++ nm

/-- Download loop of source lines 360-370, threading the filesystem.  The
`except` of lines 367-370 is unreachable for download failures because
`download_file` catches its own exceptions, so each collected link's anchor
is rewritten to the bare local filename (line 366) unconditionally. -/
def run_downloads (net : Net) (dir : Str) (links : List DLink) (fs : FSt) : FSt :=
  links.foldl (fun f l => (download_file net l.url (path_join dir l.name) f).fs) fs

/-- In-place href rewrite of source line 366, applied to the anchor list. -/
def rewrite_from (links : List DLink) : Nat → List Anchor → List Anchor
  | _, [] => []
  | i, a :: rest =>
    (match links.find? (fun l => l.idx == i) with
     | some l => { a with href := l.name }
     | none => a) :: rewrite_from links (i + 1) rest

/-- `parse_canvas_page_content_and_downloads` (source lines 316-375) from the
anchor list of the recovered body onwards: collect downloadable links,
download each, rewrite the hrefs.  The final markdown serialisation
(lines 373-375) keeps exactly these hrefs, so the rewritten anchor list is
returned in place of the markdown text. -/
def transform_anchors (net : Net) (dir : Str) (fs : FSt) (anchors : List Anchor) :
    FSt × List Anchor :=
  let links := collect_download_links anchors
  (run_downloads net dir links fs, rewrite_from links 0 anchors)

/-! ### File-page parser: `parse_file_download_link`, source lines 85-121 -/

/-- Fallback loop of source lines 102-119: the first anchor that survives the
skip test and classifies as downloadable, returned as (filename, url). -/
def find_file_link_loop : List Anchor → Option (Str × Str)
  | [] => none
  | a :: rest =>
    if skip_anchor a.href then find_file_link_loop rest
    else
      let full := absolutize_href a.href
      if is_downloadable_file full a.text then
        some (get_filename_from_url_or_text full a.text, full)
      else find_file_link_loop rest

/-- `parse_file_download_link(file_page_html)`, source lines 85-121, on the
parsed anchors.  First phase (lines 89-98): the anchor marked
`download="true"` whose href contains the direct-download marker, its text
stripped of a leading `"download "` (eight characters dropped, line 96) and
re-stripped.  Otherwise the fallback loop runs. -/
def parse_file_download_link (anchors : List Anchor) : Option (Str × Str) :=
  match anchors.find? (fun a => a.download_attr) with
  | some a =>
    if contains_sub lit_marker a.href then
      let file_url := absolutize_href a.href
      let nm := strip_spaces a.text
      let nm := if lit_download_space.isPrefixOf (nm.map Char.toLower) then
                  nm.drop 8
                else nm
      some (strip_spaces nm, file_url)
    else find_file_link_loop anchors
  | none => find_file_link_loop anchors

/-! ### Specification-side notions and concrete inputs -/

/-- The URL's path in the sense of the specification: everything before the
first `?` (query) or `#` (fragment).  Used only to state claims about the
extension rule; the source never computes this value itself. -/
def url_path_qf (url : Str) : Str :=
  url.takeWhile (fun c => !(c == '?' || c == '#'))

/-- A session whose every request fails with a transport error. -/
def net_down : Net :=
  { get := fun _ => Except.error "connection failed".data,
    fetch := fun _ => Except.error "connection failed".data }

/-- An empty on-disk state. -/
def fs_empty : FSt := fun _ => none

def anchor_notes : Anchor :=
  { href := "/courses/1/files/22".data, text := "notes".data,
    download_attr := false }

def dir_c1 : Str := "dir".data

def name_notes : Str := "notes".data

def url_w2 : Str := "https://a/b.PDF?x=1".data

def text_w2 : Str := "wiki page".data

def ext_w2 : Str := ".pdf".data

def sample_body : Bytes := [37, 80, 68, 70, 45]

def net_w3 : Net :=
  { get := fun _ => Except.error "offline".data,
    fetch := fun _ => Except.ok (200, sample_body) }

def url_w3 : Str := "https://x/f.pdf".data

def path_w3 : Str := "dir/f.pdf".data

def fs_w3 : FSt := fun q => if q = path_w3 then some sample_body else none

/-- Bytes `%PDF-<html`: a PDF signature followed by an HTML marker inside the
first kilobyte. -/
def pdf_html_bytes : Bytes := [37, 80, 68, 70, 45, 60, 104, 116, 109, 108]

/-- Bytes `%PDF-1.4`. -/
def pdf_ok_bytes : Bytes := [37, 80, 68, 70, 45, 49, 46, 52]

/-- Bytes `<html>`. -/
def html_page_bytes : Bytes := [60, 104, 116, 109, 108, 62]

/-- The canonical RAR magic `Rar!\x1a\x07\x00`. -/
def rar_header_bytes : Bytes := [82, 97, 114, 33, 26, 7, 0]

def ext_rar : Str := ".rar".data

def ext_zip : Str := ".zip".data

/-- Bytes starting with the `PK\x03\x04` ZIP local-file-header magic. -/
def zip_ok_bytes : Bytes := [80, 75, 3, 4, 9, 9]

def url_c6 : Str := "https://x/files/42/download?x=1".data

def text_c6 : Str := "Download Syllabus.pdf".data

def name_c6 : Str := "Syllabus.pdf".data

def url_w7 : Str := "https://x/y".data

def net_err7 : Net :=
  { get := fun _ => Except.error "refused".data,
    fetch := fun _ => Except.error "refused".data }

def resp_w7 : Resp :=
  { status := 200,
    final_url :=
      "https://thomasmore.instructure.com/files/9/download?download_frd=1".data,
    anchors := [] }

def net_ok7 : Net :=
  { get := fun _ => Except.ok resp_w7,
    fetch := fun _ => Except.error "x".data }

def url_w9 : Str := "https://x/12345.longext/download?q=1".data

def text_w9 : Str := "notes".data

/-- An anchor explicitly marked `download="true"` whose href contains the
direct-download marker but starts with `#`. -/
def anchor_frag_marker : Anchor :=
  { href := "#/download?download_frd=1".data, text := "f.pdf".data,
    download_attr := true }

def anchor_skip_w : Anchor :=
  { href := "mailto:bob@x".data, text := "mail".data, download_attr := false }

def anchor_down_w : Anchor :=
  { href := "/files/9/download?download_frd=1".data, text := "x".data,
    download_attr := false }

def url_down_w : Str :=
  "https://thomasmore.instructure.com/files/9/download?download_frd=1".data

def name_down_w : Str := "x".data

/-! ### Helper lemmas -/

/-- `contains_sub` decides the infix relation. -/
theorem contains_sub_correct {α : Type} [BEq α] [LawfulBEq α] (n : List α) :
    ∀ h : List α, contains_sub n h = true ↔ n <:+: h := by
  intro h
  induction h with
  | nil =>
    simp [contains_sub, List.isEmpty_iff]
  | cons c cs ih =>
    simp [contains_sub, ih, List.infix_cons_iff]

/-- The head of a non-nil `dropWhile` fails the predicate. -/
theorem dropWhile_head_eq_false {α : Type} {p : α → Bool} :
    ∀ {l : List α} {c : α} {t : List α}, l.dropWhile p = c :: t → p c = false := by
  intro l
  induction l with
  | nil => intro c t h; simp at h
  | cons x xs ih =>
    intro c t h
    rw [List.dropWhile_cons] at h
    by_cases hx : p x
    · rw [if_pos hx] at h; exact ih h
    · rw [if_neg hx] at h
      cases h
      simpa using hx

/-- `finalize_filename` never yields the empty string (source line 314). -/
theorem finalize_filename_ne_nil (f : Str) : finalize_filename f ≠ [] := by
  unfold finalize_filename
  split
  · intro h; simp [sentinel_name] at h
  · next h => simpa [List.isEmpty_iff] using h

/-- If the query/fragment-stripped URL path ends (lower-cased) in `ext`,
then the extension test of source lines 252-255 fires for `ext`. -/
theorem ext_test_of_path_suffix (url ext : Str)
    (h : ext <:+ (url_path_qf url).map Char.toLower) :
    (ext.isSuffixOf (url.map Char.toLower)
      || contains_sub (ext ++ lit_qmark) (url.map Char.toLower)
      || contains_sub (ext ++ lit_hashmark) (url.map Char.toLower)) = true := by
  have hsplit :
      url.takeWhile (fun c => !(c == '?' || c == '#'))
        ++ url.dropWhile (fun c => !(c == '?' || c == '#')) = url :=
    List.takeWhile_append_dropWhile _ url
  cases hd : url.dropWhile (fun c => !(c == '?' || c == '#')) with
  | nil =>
    have hurl : url.takeWhile (fun c => !(c == '?' || c == '#')) = url := by
      rw [hd, List.append_nil] at hsplit
      exact hsplit
    have hsuf : ext <:+ url.map Char.toLower := by
      unfold url_path_qf at h
      rwa [hurl] at h
    simp only [Bool.or_eq_true]
    left; left
    simpa using hsuf
  | cons c t =>
    have hc : (!(c == '?' || c == '#')) = false :=
      dropWhile_head_eq_false (p := fun c => !(c == '?' || c == '#')) hd
    have hc' : c = '?' ∨ c = '#' := by
      by_cases h1 : c = '?'
      · exact Or.inl h1
      · exact Or.inr ((by simpa using hc : ¬c = '?' → c = '#') h1)
    obtain ⟨pre, hpre⟩ := h
    have hmap : url.map Char.toLower
        = ((url.takeWhile (fun c => !(c == '?' || c == '#'))).map Char.toLower)
            ++ (Char.toLower c :: t.map Char.toLower) := by
      have h2 := congrArg (List.map Char.toLower) hsplit
      rw [List.map_append, hd, List.map_cons] at h2
      exact h2.symm
    have hpre' : pre ++ ext
        = (url.takeWhile (fun c => !(c == '?' || c == '#'))).map Char.toLower := hpre
    rcases hc' with hq | hh
    · have hinf : (ext ++ lit_qmark) <:+: url.map Char.toLower := by
        refine ⟨pre, t.map Char.toLower, ?_⟩
        rw [hmap, ← hpre', hq]
        have hlow : Char.toLower '?' = '?' := by decide
        rw [hlow]
        have hlq : lit_qmark = ['?'] := by decide
        rw [hlq]
        simp
      simp only [Bool.or_eq_true]
      left; right
      exact (contains_sub_correct _ _).mpr hinf
    · have hinf : (ext ++ lit_hashmark) <:+: url.map Char.toLower := by
        refine ⟨pre, t.map Char.toLower, ?_⟩
        rw [hmap, ← hpre', hh]
        have hlow : Char.toLower '#' = '#' := by decide
        rw [hlow]
        have hlh : lit_hashmark = ['#'] := by decide
        rw [hlh]
        simp
      simp only [Bool.or_eq_true]
      right
      exact (contains_sub_correct _ _).mpr hinf

/-- C2: for every URL whose path (ignoring query and fragment) ends,
case-insensitively, in a member of the fixed extension allow-list,
`is_downloadable_file(url, text)` returns `True` for every anchor text: the
extension rule of lines 252-255 is evaluated first and returns before any of
the keyword heuristics of lines 272-284 can run. -/
theorem c2_ext_rule_dominates (url text ext : Str)
    (hmem : ext ∈ downloadable_extensions)
    (h : ext <:+ (url_path_qf url).map Char.toLower) :
    is_downloadable_file url text = true := by
  have hsig : ext_signal url = true := by
    unfold ext_signal
    exact List.any_eq_true.mpr ⟨ext, hmem, ext_test_of_path_suffix url ext h⟩
  simp [is_downloadable_file, hsig]

/-- C2 witness: `https://a/b.PDF?x=1` with navigational anchor text
`wiki page` classifies as downloadable. -/
theorem c2_ext_rule_dominates_witness : is_downloadable_file url_w2 text_w2 = true :=
  c2_ext_rule_dominates url_w2 text_w2 ext_w2 (by decide) (by decide)

/-- C8: every URL matching one of the Canvas file-reference patterns of
source lines 258-269 classifies as downloadable for every anchor text, even
when no allow-listed extension is present: either the extension test already
fired, or the pattern test fires right after it. -/
theorem c8_canvas_patterns_downloadable (url text : Str)
    (h : canvas_signal url = true) :
    is_downloadable_file url text = true := by
  unfold is_downloadable_file
  cases he : ext_signal url <;> simp [he, h]

/-- C8 witness: the extension-free URL `/files/123` (pattern `/files/\d+`)
classifies as downloadable with navigational anchor text. -/
theorem c8_canvas_patterns_downloadable_witness :
    is_downloadable_file "/files/123".data "wiki".data = true :=
  c8_canvas_patterns_downloadable "/files/123".data "wiki".data (by decide)

/-- C6: `get_filename_from_url_or_text` never returns the empty string (the
sentinel of line 314 covers the empty case), and on
url `https://x/files/42/download?x=1` with anchor text
`Download Syllabus.pdf` it returns exactly `Syllabus.pdf`: the final URL
segment `download` has no extension, so the anchor-text fallback is used and
its leading `Download ` prefix is stripped (lines 300-303). -/
theorem c6_filename_resolution :
    (∀ url text : Str, get_filename_from_url_or_text url text ≠ [])
      ∧ get_filename_from_url_or_text url_c6 text_c6 = name_c6 := by
  constructor
  · intro url text
    exact finalize_filename_ne_nil _
  · rfl

/-- C9: when the final URL path segment is unusable (empty, all digits, or
without a dot, line 299), the fallback anchor text has no dot but the
query-stripped URL does (line 305), the URL's trailing dotted segment is
appended precisely when the dotted extension is at most five characters
including the dot — i.e. at most four characters proper (lines 306-310);
longer dotted segments are never appended. -/
theorem c9_append_short_ext_only (url text : Str)
    (hbad : ((basename_of (url_path_of_py url)).isEmpty
        || is_all_digits (basename_of (url_path_of_py url))
        || !((basename_of (url_path_of_py url)).contains '.')) = true)
    (hfb : (fallback_name text).contains '.' = false)
    (hdot : (url_path_of_py url).contains '.' = true) :
    (((after_last_dot (url_path_of_py url)).length + 1 ≤ 5) →
        get_filename_from_url_or_text url text
          = finalize_filename (fallback_name text
              ++ '.' :: after_last_dot (url_path_of_py url)))
      ∧ (¬ ((after_last_dot (url_path_of_py url)).length + 1 ≤ 5) →
        get_filename_from_url_or_text url text
          = finalize_filename (fallback_name text)) := by
  have hbad' : (basename_of (url_path_of_py url) = []
      ∨ is_all_digits (basename_of (url_path_of_py url)) = true)
      ∨ '.' ∉ basename_of (url_path_of_py url) := by simpa using hbad
  have hfb' : '.' ∉ fallback_name text := by simpa using hfb
  have hdot' : '.' ∈ url_path_of_py url := by simpa using hdot
  constructor
  · intro hlen
    unfold get_filename_from_url_or_text
    simp [hbad', hfb', hdot', hlen]
  · intro hlen
    unfold get_filename_from_url_or_text
    simp [hbad', hfb', hdot', hlen]

/-- C9 witness: for `https://x/12345.longext/download?q=1` the trailing
dotted segment `longext/download` has more than four characters, so nothing
is appended to the fallback text `notes`. -/
theorem c9_append_short_ext_only_witness :
    get_filename_from_url_or_text url_w9 text_w9
      = finalize_filename (fallback_name text_w9) :=
  (c9_append_short_ext_only url_w9 text_w9 (by decide) (by decide)
    (by decide)).2 (by decide)

/-- C4: exhibits the validator bug.  A file whose first bytes are
`%PDF-<html` passes the PDF signature check of line 171 but is then caught
by the generic HTML check of lines 194-195 — commented in the source as
applying to "other file types" yet executed for every extension — so the
claim "every file whose first bytes are `%PDF-` with extension `.pdf`
validates true" fails on this input.  The second and third conjuncts record
the behaviours the claim gets right (`%PDF-1.4` validates true, `<html>`
is rejected with the HTML-specific message), and the last that validation
inspects only the first 1024 bytes. -/
theorem c4_pdf_validator_bug :
    validate_file_content (some pdf_html_bytes) ext_pdf = (false, msg_html_generic)
      ∧ validate_file_content (some pdf_ok_bytes) ext_pdf = (true, msg_valid)
      ∧ validate_file_content (some html_page_bytes) ext_pdf
          = (false, msg_html_not_pdf)
      ∧ ∀ (bytes : Bytes) (ext : Str),
          validate_file_content (some bytes) ext
            = validate_file_content (some (bytes.take 1024)) ext := by
  refine ⟨rfl, rfl, rfl, ?_⟩
  intro bytes ext
  simp only [validate_file_content, List.take_take, Nat.min_self]

/-- C5 counterexample: a file that begins with the canonical RAR magic
`Rar!\x1a\x07\x00` and has extension `.rar` is reported invalid, because the
archive branch of lines 176-181 checks `.rar` (and `.7z`) against the ZIP
`PK` signatures only — refuting both "checked against that specific format's
canonical magic signature" and "a genuine file of that format is never
reported invalid". -/
theorem c5_rar_magic_counterexample :
    validate_file_content (some rar_header_bytes) ext_rar
      = (false, msg_not_archive) := rfl

/-- C5 amended: for the archive extensions `.zip`, `.rar`, `.7z` the header
is checked against the ZIP family signatures `PK\x03\x04`, `PK\x05\x06`,
`PK\x07\x08`; a file matching one of those signatures whose first 1024 bytes
contain no HTML marker is reported valid (so genuine ZIP files are never
flagged), while genuine RAR or 7z files are reported invalid. -/
theorem c5_zip_family_check (bytes : Bytes) (ext : Str)
    (hext : ext.map Char.toLower ∈ archive_exts)
    (hsig : zip_signatures.any (fun sig => sig.isPrefixOf (bytes.take 1024)) = true)
    (hhtml : contains_sub bytes_html ((bytes.take 1024).map byte_lower) = false)
    (hdoc : contains_sub bytes_doctype ((bytes.take 1024).map byte_lower) = false) :
    validate_file_content (some bytes) ext = (true, msg_valid) := by
  have hext' : ext.map Char.toLower = ".zip".data
      ∨ ext.map Char.toLower = ".rar".data
      ∨ ext.map Char.toLower = ".7z".data := by
    simpa [archive_exts] using hext
  have hne : ¬ (ext.map Char.toLower = ext_pdf) := by
    rcases hext' with h | h | h <;> rw [h] <;> decide
  have hhtml' : contains_sub bytes_html ((bytes.map byte_lower).take 1024) = false := by
    rwa [← List.map_take]
  have hdoc' : contains_sub bytes_doctype ((bytes.map byte_lower).take 1024) = false := by
    rwa [← List.map_take]
  unfold validate_file_content
  simp [hne, hext, hsig, hhtml', hdoc']

/-- C5 amended witness: a `.zip` file starting with `PK\x03\x04` and free of
HTML markers validates true. -/
theorem c5_zip_family_check_witness :
    validate_file_content (some zip_ok_bytes) ext_zip = (true, msg_valid) :=
  c5_zip_family_check zip_ok_bytes ext_zip (by decide) (by decide) (by decide)
    (by decide)

/-- C7: the redirect/indirection resolver is a total function that swallows
failures.  A transport error of the probe `get` (caught at lines 158-160) or
an HTTP error status (raised at line 128, caught at 158-160) makes it return
the original URL; and when the final URL after redirects already carries the
direct-download marker (line 132) that final URL is returned unchanged.
Totality and the absence of exceptions hold by construction: the embedding
is a plain function into `Str`. -/
theorem c7_resolver_swallows_errors (net : Net) (url : Str) :
    (∀ e, net.get url = Except.error e → resolve_canvas_file_url net url = url)
      ∧ (∀ r, net.get url = Except.ok r → 400 ≤ r.status →
          resolve_canvas_file_url net url = url)
      ∧ (∀ r, net.get url = Except.ok r → r.status < 400 →
          contains_sub lit_marker r.final_url = true →
          resolve_canvas_file_url net url = r.final_url) := by
  refine ⟨?_, ?_, ?_⟩
  · intro e h
    unfold resolve_canvas_file_url
    rw [h]
  · intro r h hst
    unfold resolve_canvas_file_url
    rw [h]
    simp [hst]
  · intro r h hst hm
    unfold resolve_canvas_file_url
    rw [h]
    simp [Nat.not_le.mpr hst, hm]

/-- C7 witness: a failing probe returns the original URL; a probe whose
final URL carries the direct-download marker returns that final URL. -/
theorem c7_resolver_swallows_errors_witness :
    resolve_canvas_file_url net_err7 url_w7 = url_w7
      ∧ resolve_canvas_file_url net_ok7 url_w7 = resp_w7.final_url :=
  ⟨(c7_resolver_swallows_errors net_err7 url_w7).1 "refused".data rfl,
   (c7_resolver_swallows_errors net_ok7 url_w7).2.2 resp_w7 rfl (by decide)
     (by decide)⟩

/-- C3: the downloader is idempotent by file existence.  First conjunct
(lines 204-206): when the file already exists, `download_file` issues no
resolver probe, no streamed fetch, and returns the filesystem unchanged.
Second conjunct: when the file is absent and the streamed fetch succeeds,
running the downloader twice performs exactly one streamed fetch in total,
the second invocation issues no probe, and the file holds the fetched bytes,
byte-identical after the second invocation. -/
theorem c3_download_idempotent :
    (∀ (net : Net) (url p : Str) (fs : FSt) (b : Bytes), fs p = some b →
        download_file net url p fs
          = { fs := fs, resolveGets := 0, streamGets := 0, validation := none })
      ∧ (∀ (net : Net) (url p : Str) (fs : FSt) (st : Nat) (body : Bytes),
          fs p = none → st < 400 →
          net.fetch (resolve_canvas_file_url net url) = Except.ok (st, body) →
          (download_file net url p fs).streamGets
              + (download_file net url p (download_file net url p fs).fs).streamGets
            = 1
          ∧ (download_file net url p (download_file net url p fs).fs).fs p
              = (download_file net url p fs).fs p
          ∧ (download_file net url p fs).fs p = some body
          ∧ (download_file net url p
                (download_file net url p fs).fs).resolveGets = 0) := by
  constructor
  · intro net url p fs b h
    unfold download_file
    simp [h]
  · intro net url p fs st body hnone hst hfetch
    have h1 : download_file net url p fs
        = { fs := fs_update fs p body, resolveGets := 1, streamGets := 1,
            validation := some (validate_file_content (some body)
                                  (splitext_ext p)) } := by
      unfold download_file
      simp [hnone, hfetch, Nat.not_le.mpr hst]
    have hp : fs_update fs p body p = some body := by simp [fs_update]
    have h2 : download_file net url p (fs_update fs p body)
        = { fs := fs_update fs p body, resolveGets := 0, streamGets := 0,
            validation := none } := by
      unfold download_file
      simp [hp]
    rw [h1]
    simp [h2, hp]

/-- C3 witness: with the file already on disk nothing happens; starting from
an empty disk with a successful fetch, two invocations perform one streamed
fetch in total. -/
theorem c3_download_idempotent_witness :
    download_file net_w3 url_w3 path_w3 fs_w3
        = { fs := fs_w3, resolveGets := 0, streamGets := 0, validation := none }
      ∧ (download_file net_w3 url_w3 path_w3 fs_empty).streamGets
          + (download_file net_w3 url_w3 path_w3
              (download_file net_w3 url_w3 path_w3 fs_empty).fs).streamGets = 1 :=
  ⟨c3_download_idempotent.1 net_w3 url_w3 path_w3 fs_w3 sample_body rfl,
   (c3_download_idempotent.2 net_w3 url_w3 path_w3 fs_empty 200 sample_body rfl
      (by decide) rfl).1⟩

/-- C1: exhibits the rewrite-on-failure bug.  With a network where every
request fails, the transformer still rewrites the sole downloadable anchor's
href from `/courses/1/files/22` to the local filename `notes` (line 366
executes because `download_file` swallows its own errors at lines 235-236,
so the `except` of lines 367-370 — commented "Keep original link if download
fails" — is unreachable for download failures), while no file exists at the
corresponding local path: the returned markdown references a local path with
no file on disk, contradicting the claimed invariant. -/
theorem c1_failed_download_still_rewrites :
    (transform_anchors net_down dir_c1 fs_empty [anchor_notes]).2
        = [{ href := name_notes, text := name_notes, download_attr := false }]
      ∧ (transform_anchors net_down dir_c1 fs_empty [anchor_notes]).1
          (path_join dir_c1 name_notes) = none
      ∧ anchor_notes.href ≠ name_notes := by
  refine ⟨rfl, rfl, by decide⟩

/-- Every link collected by the transformer's collection loop points at an
anchor that survived the skip test. -/
theorem collect_from_idx_spec :
    ∀ (anchors : List Anchor) (s : Nat) (l : DLink), l ∈ collect_from s anchors →
      ∃ j a, anchors[j]? = some a ∧ l.idx = s + j
        ∧ skip_anchor a.href = false := by
  intro anchors
  induction anchors with
  | nil =>
    intro s l h
    simp [collect_from] at h
  | cons a rest ih =>
    intro s l h
    simp only [collect_from] at h
    split at h
    · obtain ⟨j, b, hj, hidx, hskip⟩ := ih (s + 1) l h
      exact ⟨j + 1, b, by simpa using hj, by omega, hskip⟩
    · next hs =>
      split at h
      · rcases List.mem_cons.mp h with h1 | h2
        · exact ⟨0, a, by simp, by simp [h1], by simpa using hs⟩
        · obtain ⟨j, b, hj, hidx, hskip⟩ := ih (s + 1) l h2
          exact ⟨j + 1, b, by simpa using hj, by omega, hskip⟩
      · obtain ⟨j, b, hj, hidx, hskip⟩ := ih (s + 1) l h
        exact ⟨j + 1, b, by simpa using hj, by omega, hskip⟩

/-- An anchor for which no collected link holds its position is emitted
unchanged by the rewrite pass. -/
theorem rewrite_from_no_link :
    ∀ (anchors : List Anchor) (links : List DLink) (s i : Nat) (a : Anchor),
      anchors[i]? = some a →
      (∀ l ∈ links, l.idx ≠ s + i) →
      (rewrite_from links s anchors)[i]? = some a := by
  intro anchors
  induction anchors with
  | nil =>
    intro links s i a h _
    simp at h
  | cons b rest ih =>
    intro links s i a h hno
    cases i with
    | zero =>
      simp only [List.getElem?_cons_zero, Option.some_inj] at h
      have hf : links.find? (fun l => l.idx == s) = none := by
        apply List.find?_eq_none.mpr
        intro l hl
        have := hno l hl
        simpa using (by omega : l.idx ≠ s)
      simp [rewrite_from, hf, h]
    | succ j =>
      simp only [List.getElem?_cons_succ] at h
      have hstep := ih links (s + 1) j a h (by intro l hl; have := hno l hl; omega)
      simpa [rewrite_from] using hstep

/-- C10 amended: in the page-content transformer (lines 331-370), an anchor
whose href is empty or starts with `#` or `mailto:` is never collected for
download and is passed through with its href unchanged; in the file-page
parser, the fallback loop (lines 102-119) only ever selects an anchor that
survives the same skip test.  (The parser's first phase, lines 89-98, is the
exception recorded by the counterexample: it accepts a `download="true"`
anchor by marker alone, without the skip test.) -/
theorem c10_skipped_anchors_passthrough :
    (∀ (anchors : List Anchor) (i : Nat) (a : Anchor),
        anchors[i]? = some a → skip_anchor a.href = true →
        (∀ l ∈ collect_download_links anchors, l.idx ≠ i)
          ∧ ∀ (net : Net) (dir : Str) (fs : FSt),
              ((transform_anchors net dir fs anchors).2)[i]? = some a)
      ∧ (∀ (anchors : List Anchor) (nm u : Str),
          find_file_link_loop anchors = some (nm, u) →
          ∃ a ∈ anchors, skip_anchor a.href = false
            ∧ u = absolutize_href a.href
            ∧ nm = get_filename_from_url_or_text (absolutize_href a.href) a.text) := by
  constructor
  · intro anchors i a hi hskip
    have hno : ∀ l ∈ collect_download_links anchors, l.idx ≠ i := by
      intro l hl heq
      obtain ⟨j, b, hj, hidx, hb⟩ := collect_from_idx_spec anchors 0 l hl
      have hji : j = i := by omega
      rw [hji, hi] at hj
      cases hj
      rw [hskip] at hb
      cases hb
    refine ⟨hno, ?_⟩
    intro net dir fs
    show (rewrite_from (collect_download_links anchors) 0 anchors)[i]? = some a
    exact rewrite_from_no_link anchors (collect_download_links anchors) 0 i a hi
      (by intro l hl; have := hno l hl; omega)
  · intro anchors
    induction anchors with
    | nil =>
      intro nm u h
      simp [find_file_link_loop] at h
    | cons a rest ih =>
      intro nm u h
      simp only [find_file_link_loop] at h
      split at h
      · obtain ⟨b, hb, h1, h2, h3⟩ := ih nm u h
        exact ⟨b, List.mem_cons_of_mem a hb, h1, h2, h3⟩
      · next hs =>
        split at h
        · rw [Option.some_inj] at h
          injection h with hnm hu
          exact ⟨a, List.mem_cons_self a rest, by simpa using hs, hu.symm, hnm.symm⟩
        · obtain ⟨b, hb, h1, h2, h3⟩ := ih nm u h
          exact ⟨b, List.mem_cons_of_mem a hb, h1, h2, h3⟩

/-- C10 counterexample: an anchor with `download="true"` whose href starts
with `#` but contains the direct-download marker is selected by the first
phase of `parse_file_download_link` (lines 89-98, which run before the skip
test of lines 106-108), so the pipeline does attempt a download for an
anchor whose href starts with `#` — `main` (lines 408-418) invokes
`download_file` on exactly this returned pair. -/
theorem c10_fragment_href_selected :
    skip_anchor anchor_frag_marker.href = true
      ∧ parse_file_download_link [anchor_frag_marker]
          = some ("f.pdf".data, "#/download?download_frd=1".data) :=
  ⟨rfl, rfl⟩

/-- C10 amended witness: a `mailto:` anchor followed by a downloadable file
anchor — the `mailto:` anchor is never collected and passes through
unchanged, and the fallback loop selects the non-skipped anchor. -/
theorem c10_skipped_anchors_passthrough_witness :
    ((∀ l ∈ collect_download_links [anchor_skip_w, anchor_down_w], l.idx ≠ 0)
      ∧ ((transform_anchors net_down dir_c1 fs_empty
            [anchor_skip_w, anchor_down_w]).2)[0]? = some anchor_skip_w)
      ∧ ∃ a ∈ [anchor_skip_w, anchor_down_w], skip_anchor a.href = false
          ∧ url_down_w = absolutize_href a.href
          ∧ name_down_w
              = get_filename_from_url_or_text (absolutize_href a.href) a.text := by
  have h1 := c10_skipped_anchors_passthrough.1 [anchor_skip_w, anchor_down_w] 0
    anchor_skip_w rfl rfl
  exact ⟨⟨h1.1, h1.2 net_down dir_c1 fs_empty⟩,
    c10_skipped_anchors_passthrough.2 [anchor_skip_w, anchor_down_w]
      name_down_w url_down_w rfl⟩
